import Mathlib

/-!
Verification of the PIXHUB photo-editor orchestration layer.

The definitions below are a shallow embedding of `src/App.tsx` and
`src/components/AdjustmentPanel.tsx`: the edit-history store, the transient
editing state, the passport workflow, the crop raster computation, the
sheet-composition layout loop, and the adjustment-to-instruction translator.
JavaScript numbers are modelled as exact rationals, files as opaque
name/data records, and the React state as an explicit record acted on by a
step function over user/completion events.
-/

/-- An image file: an opaque blob with a name (`File` in the source). -/
structure Image where
  name : String
  data : String
deriving DecidableEq, Repr

/-- The editing tabs (`type Tab` in App.tsx). -/
inductive Tab
  | retouch
  | adjust
  | filters
  | crop
  | enhance
  | passport
deriving DecidableEq, Repr

/-- The passport workflow states (`type PassportStep` in App.tsx). -/
inductive PassportStep
  | idle
  | cropping
  | background
  | sheet
deriving DecidableEq, Repr

/-- A completed crop rectangle in displayed-image coordinates
(`PixelCrop` from react-image-crop, as used by App.tsx). -/
structure PixelCrop where
  x : ℚ
  y : ℚ
  width : ℚ
  height : ℚ
deriving DecidableEq, Repr

/-- The slider record from AdjustmentPanel.tsx (`interface Adjustments`). -/
structure Adjustments where
  brightness : Int
  contrast : Int
  saturation : Int
  temperature : Int
  sharpness : Int
  vignetteIntensity : Int
  vignetteFeather : Int
  colorBalance : Int
deriving DecidableEq, Repr

/-- `initialAdjustments` from AdjustmentPanel.tsx: every slider 0. -/
def initialAdjustments : Adjustments :=
  { brightness := 0, contrast := 0, saturation := 0, temperature := 0,
    sharpness := 0, vignetteIntensity := 0, vignetteFeather := 0,
    colorBalance := 0 }

/-- The reactive state owned by the `App` component (App.tsx lines 41-61). -/
structure AppState where
  history : List Image
  historyIndex : Int
  prompt : String
  isLoading : Bool
  error : Option String
  editHotspot : Option (Int × Int)
  displayHotspot : Option (ℚ × ℚ)
  activeTab : Tab
  crop : Option PixelCrop
  completedCrop : Option PixelCrop
  aspect : Option ℚ
  adjustments : Adjustments
  passportStep : PassportStep
  passportCroppedImage : Option Image
deriving DecidableEq, Repr

/-- The initial state of the component (the useState initialisers). -/
def initialState : AppState :=
  { history := [], historyIndex := -1, prompt := "", isLoading := false,
    error := none, editHotspot := none, displayHotspot := none,
    activeTab := Tab.retouch, crop := none, completedCrop := none,
    aspect := none, adjustments := initialAdjustments,
    passportStep := PassportStep.idle, passportCroppedImage := none }

/-- `history[historyIndex] ?? null` (App.tsx line 63); a negative JS index
reads `undefined`. -/
def currentImage (s : AppState) : Option Image :=
  if s.historyIndex < 0 then none else s.history[s.historyIndex.toNat]?

/-- `history[0] ?? null` (App.tsx line 64). -/
def originalImage (s : AppState) : Option Image :=
  s.history.head?

/-- `canUndo = historyIndex > 0` (App.tsx line 113). -/
def canUndo (s : AppState) : Prop :=
  0 < s.historyIndex

/-- `canRedo = historyIndex < history.length - 1` (App.tsx line 114). -/
def canRedo (s : AppState) : Prop :=
  s.historyIndex < (s.history.length : Int) - 1

instance (s : AppState) : Decidable (canUndo s) := by
  unfold canUndo; infer_instance

instance (s : AppState) : Decidable (canRedo s) := by
  unfold canRedo; infer_instance

/-- `resetTransientState` (App.tsx lines 69-75): clears the pending and
completed crops, both hotspots, and restores the default slider values. -/
def resetTransientState (s : AppState) : AppState :=
  { s with
      crop := none
      completedCrop := none
      editHotspot := none
      displayHotspot := none
      adjustments := initialAdjustments }

/-- `addImageToHistory` (App.tsx lines 116-125): slice the history to the
first `historyIndex + 1` entries, push the new file, point the cursor at the
new last entry, reset the transient state, and additionally zero the slider
record when `resetAdj` is set. -/
def addImageToHistory (s : AppState) (newImageFile : Image) (resetAdj : Bool) :
    AppState :=
  let newHistory := s.history.take (s.historyIndex + 1).toNat ++ [newImageFile]
  let s' := resetTransientState
    { s with
        history := newHistory
        historyIndex := (newHistory.length : Int) - 1 }
  if resetAdj then { s' with adjustments := initialAdjustments } else s'

/-- `handleUndo` (App.tsx lines 378-383). -/
def handleUndo (s : AppState) : AppState :=
  if canUndo s then
    resetTransientState { s with historyIndex := s.historyIndex - 1 }
  else s

/-- `handleRedo` (App.tsx lines 385-390). -/
def handleRedo (s : AppState) : AppState :=
  if canRedo s then
    resetTransientState { s with historyIndex := s.historyIndex + 1 }
  else s

/-- `handleReset` (App.tsx lines 392-398). -/
def handleReset (s : AppState) : AppState :=
  if 0 < s.history.length then
    resetTransientState { s with historyIndex := 0, error := none }
  else s

/-- The history cursor invariant maintained by the app: the cursor is `-1`
exactly on the empty history and otherwise a valid index. -/
def HistoryInv (s : AppState) : Prop :=
  (s.history = [] ∧ s.historyIndex = -1) ∨
    (0 ≤ s.historyIndex ∧ s.historyIndex < s.history.length)

/-- A non-empty history with a valid cursor. -/
def ValidCursor (s : AppState) : Prop :=
  0 ≤ s.historyIndex ∧ s.historyIndex < s.history.length

/-- C1 — `addImageToHistory` truncates the history to the first
`cursor + 1` entries, appends the new image, and moves the cursor to the new
last index; in particular `canRedo` fails afterwards, so a commit after any
number of undos makes redo unavailable. The cursor hypothesis `-1 ≤ cursor`
holds in every state the app reaches (`-1` on empty history, a valid index
otherwise). -/
theorem addImageToHistory_truncates_appends_and_kills_redo
    (s : AppState) (img : Image) (resetAdj : Bool)
    (_h : -1 ≤ s.historyIndex) :
    (addImageToHistory s img resetAdj).history =
      s.history.take (s.historyIndex + 1).toNat ++ [img] ∧
    (addImageToHistory s img resetAdj).historyIndex =
      ((addImageToHistory s img resetAdj).history.length : Int) - 1 ∧
    ¬ canRedo (addImageToHistory s img resetAdj) := by
  have h1 : (addImageToHistory s img resetAdj).history =
      s.history.take (s.historyIndex + 1).toNat ++ [img] := by
    cases resetAdj <;> rfl
  have h2 : (addImageToHistory s img resetAdj).historyIndex =
      ((s.history.take (s.historyIndex + 1).toNat ++ [img]).length : Int) - 1 := by
    cases resetAdj <;> rfl
  refine ⟨h1, ?_, ?_⟩
  · rw [h1, h2]
  · unfold canRedo
    rw [h1, h2]
    omega

/-- Witness for C1 at a concrete state: history `[a, b, c]` with cursor 1;
committing `d` yields `[a, b, d]` with cursor 2 and no redo available. -/
theorem addImageToHistory_truncates_appends_and_kills_redo_witness :
    (addImageToHistory
      { initialState with
          history := [⟨"a", ""⟩, ⟨"b", ""⟩, ⟨"c", ""⟩], historyIndex := 1 }
      ⟨"d", ""⟩ false).history =
      ([⟨"a", ""⟩, ⟨"b", ""⟩, ⟨"c", ""⟩] : List Image).take 2 ++ [⟨"d", ""⟩] ∧
    (addImageToHistory
      { initialState with
          history := [⟨"a", ""⟩, ⟨"b", ""⟩, ⟨"c", ""⟩], historyIndex := 1 }
      ⟨"d", ""⟩ false).historyIndex =
      ((addImageToHistory
        { initialState with
            history := [⟨"a", ""⟩, ⟨"b", ""⟩, ⟨"c", ""⟩], historyIndex := 1 }
        ⟨"d", ""⟩ false).history.length : Int) - 1 ∧
    ¬ canRedo (addImageToHistory
      { initialState with
          history := [⟨"a", ""⟩, ⟨"b", ""⟩, ⟨"c", ""⟩], historyIndex := 1 }
      ⟨"d", ""⟩ false) := by
  exact addImageToHistory_truncates_appends_and_kills_redo
    { initialState with
        history := [⟨"a", ""⟩, ⟨"b", ""⟩, ⟨"c", ""⟩], historyIndex := 1 }
    ⟨"d", ""⟩ false (by norm_num)

@[simp] theorem resetTransientState_history (s : AppState) :
    (resetTransientState s).history = s.history := rfl

@[simp] theorem resetTransientState_historyIndex (s : AppState) :
    (resetTransientState s).historyIndex = s.historyIndex := rfl

@[simp] theorem resetTransientState_passportStep (s : AppState) :
    (resetTransientState s).passportStep = s.passportStep := rfl

@[simp] theorem resetTransientState_passportCroppedImage (s : AppState) :
    (resetTransientState s).passportCroppedImage = s.passportCroppedImage := rfl

@[simp] theorem resetTransientState_activeTab (s : AppState) :
    (resetTransientState s).activeTab = s.activeTab := rfl

@[simp] theorem resetTransientState_error (s : AppState) :
    (resetTransientState s).error = s.error := rfl

@[simp] theorem resetTransientState_isLoading (s : AppState) :
    (resetTransientState s).isLoading = s.isLoading := rfl

@[simp] theorem resetTransientState_prompt (s : AppState) :
    (resetTransientState s).prompt = s.prompt := rfl

@[simp] theorem resetTransientState_aspect (s : AppState) :
    (resetTransientState s).aspect = s.aspect := rfl

theorem handleRedo_of_canRedo (s : AppState) (h : canRedo s) :
    handleRedo s = resetTransientState { s with historyIndex := s.historyIndex + 1 } := by
  unfold handleRedo
  rw [if_pos h]

theorem handleUndo_of_canUndo (s : AppState) (h : canUndo s) :
    handleUndo s = resetTransientState { s with historyIndex := s.historyIndex - 1 } := by
  unfold handleUndo
  rw [if_pos h]

/-- Iterating `handleRedo` `k` times from a valid cursor that has at least
`k` entries ahead of it advances the cursor by `k` and leaves the history
sequence unchanged. -/
theorem handleRedo_iterate (k : Nat) :
    ∀ s : AppState, 0 ≤ s.historyIndex →
      s.historyIndex + k < s.history.length →
      (handleRedo^[k] s).history = s.history ∧
      (handleRedo^[k] s).historyIndex = s.historyIndex + k := by
  induction k with
  | zero => intro s _ _; simp
  | succ n ih =>
    intro s h0 hk
    have hcr : canRedo s := by unfold canRedo; omega
    rw [Function.iterate_succ_apply, handleRedo_of_canRedo s hcr]
    obtain ⟨ha, hb⟩ := ih (resetTransientState { s with historyIndex := s.historyIndex + 1 })
      (by simp; omega) (by simp; omega)
    refine ⟨by simpa using ha, ?_⟩
    rw [hb]
    simp
    omega

/-- C4 — `handleUndo` is a no-op at cursor 0 and otherwise decrements the
cursor (leaving the sequence unchanged); `handleRedo` is a no-op at the last
index and otherwise increments the cursor; and from any valid state with
cursor `> 0`, undo followed by redo restores the exact prior current
image. -/
theorem undo_redo_cursor_spec (s : AppState) (h : ValidCursor s) :
    (s.historyIndex = 0 → handleUndo s = s) ∧
    (s.historyIndex ≠ 0 →
      (handleUndo s).historyIndex = s.historyIndex - 1 ∧
      (handleUndo s).history = s.history) ∧
    (s.historyIndex = (s.history.length : Int) - 1 → handleRedo s = s) ∧
    (s.historyIndex ≠ (s.history.length : Int) - 1 →
      (handleRedo s).historyIndex = s.historyIndex + 1 ∧
      (handleRedo s).history = s.history) ∧
    (0 < s.historyIndex →
      currentImage (handleRedo (handleUndo s)) = currentImage s) := by
  obtain ⟨h0, h1⟩ := h
  refine ⟨?_, ?_, ?_, ?_, ?_⟩
  · intro hz
    unfold handleUndo
    rw [if_neg]
    unfold canUndo
    omega
  · intro hnz
    rw [handleUndo_of_canUndo s (by unfold canUndo; omega)]
    simp
  · intro hlast
    unfold handleRedo
    rw [if_neg]
    unfold canRedo
    omega
  · intro hnl
    rw [handleRedo_of_canRedo s (by unfold canRedo; omega)]
    simp
  · intro hpos
    rw [handleUndo_of_canUndo s (by unfold canUndo; omega)]
    rw [handleRedo_of_canRedo _ (by unfold canRedo; simp; omega)]
    have hidx : s.historyIndex - 1 + 1 = s.historyIndex := by omega
    unfold currentImage
    simp [hidx]

/-- Witness for C4 at history `[a, b]`, cursor 1: undo moves the cursor to
0, redo moves it back, and the current image is restored. -/
theorem undo_redo_cursor_spec_witness :
    ((handleUndo { initialState with history := [⟨"a", ""⟩, ⟨"b", ""⟩], historyIndex := 1 }).historyIndex = 0 ∧
      (handleUndo { initialState with history := [⟨"a", ""⟩, ⟨"b", ""⟩], historyIndex := 1 }).history = [⟨"a", ""⟩, ⟨"b", ""⟩]) ∧
    currentImage (handleRedo (handleUndo { initialState with history := [⟨"a", ""⟩, ⟨"b", ""⟩], historyIndex := 1 })) =
      currentImage { initialState with history := [⟨"a", ""⟩, ⟨"b", ""⟩], historyIndex := 1 } := by
  have h := undo_redo_cursor_spec
    { initialState with history := [⟨"a", ""⟩, ⟨"b", ""⟩], historyIndex := 1 }
    ⟨by norm_num, by norm_num [initialState]⟩
  exact ⟨by simpa using h.2.1 (by norm_num), h.2.2.2.2 (by norm_num)⟩

/-- C5 — `handleReset` is a no-op on the empty history and otherwise jumps
the cursor to 0 without truncating the sequence; redoing
`historyIndex.toNat` times afterwards restores the pre-reset current
image. -/
theorem reset_to_original_spec (s : AppState) (h : HistoryInv s) :
    (s.history = [] → handleReset s = s) ∧
    (s.history ≠ [] →
      (handleReset s).historyIndex = 0 ∧ (handleReset s).history = s.history) ∧
    (s.history ≠ [] →
      currentImage (handleRedo^[s.historyIndex.toNat] (handleReset s)) =
        currentImage s) := by
  refine ⟨?_, ?_, ?_⟩
  · intro he
    unfold handleReset
    rw [if_neg]
    simp [he]
  · intro hne
    unfold handleReset
    rw [if_pos]
    · simp
    · simpa [List.length_pos] using hne
  · intro hne
    have hval : 0 ≤ s.historyIndex ∧ s.historyIndex < s.history.length := by
      rcases h with ⟨he, _⟩ | hv
      · exact absurd he hne
      · exact hv
    have hr : handleReset s =
        resetTransientState { s with historyIndex := 0, error := none } := by
      unfold handleReset
      rw [if_pos]
      simpa [List.length_pos] using hne
    rw [hr]
    obtain ⟨ha, hb⟩ := handleRedo_iterate s.historyIndex.toNat
      (resetTransientState { s with historyIndex := 0, error := none })
      (by simp) (by simp; omega)
    have ha' : (handleRedo^[s.historyIndex.toNat]
        (resetTransientState { s with historyIndex := 0, error := none })).history =
        s.history := ha
    have hb' : (handleRedo^[s.historyIndex.toNat]
        (resetTransientState { s with historyIndex := 0, error := none })).historyIndex =
        s.historyIndex := by
      rw [hb]
      show (0 : Int) + (s.historyIndex.toNat : Int) = s.historyIndex
      omega
    unfold currentImage
    rw [ha', hb']

/-- Witness for C5 at history `[a, b, c]`, cursor 2: reset jumps to 0
keeping all three entries, and two redos restore the current image. -/
theorem reset_to_original_spec_witness :
    ((handleReset { initialState with history := [⟨"a", ""⟩, ⟨"b", ""⟩, ⟨"c", ""⟩], historyIndex := 2 }).historyIndex = 0 ∧
      (handleReset { initialState with history := [⟨"a", ""⟩, ⟨"b", ""⟩, ⟨"c", ""⟩], historyIndex := 2 }).history = [⟨"a", ""⟩, ⟨"b", ""⟩, ⟨"c", ""⟩]) ∧
    currentImage (handleRedo^[2] (handleReset { initialState with history := [⟨"a", ""⟩, ⟨"b", ""⟩, ⟨"c", ""⟩], historyIndex := 2 })) =
      currentImage { initialState with history := [⟨"a", ""⟩, ⟨"b", ""⟩, ⟨"c", ""⟩], historyIndex := 2 } := by
  have h := reset_to_original_spec
    { initialState with history := [⟨"a", ""⟩, ⟨"b", ""⟩, ⟨"c", ""⟩], historyIndex := 2 }
    (Or.inr ⟨by norm_num, by norm_num [initialState]⟩)
  exact ⟨h.2.1 (by simp), by simpa using h.2.2 (by simp)⟩

/-- The slider identifiers (`type AdjustmentKey` in AdjustmentPanel.tsx). -/
inductive AdjustmentKey
  | brightness
  | contrast
  | saturation
  | temperature
  | sharpness
  | vignetteIntensity
  | vignetteFeather
  | colorBalance
deriving DecidableEq, Repr

/-- `Object.keys(adjustments)`: the record fields in declaration order. -/
def adjustmentKeys : List AdjustmentKey :=
  [.brightness, .contrast, .saturation, .temperature, .sharpness,
   .vignetteIntensity, .vignetteFeather, .colorBalance]

/-- Field access `adjustments[key]`. -/
def Adjustments.get (a : Adjustments) : AdjustmentKey → Int
  | .brightness => a.brightness
  | .contrast => a.contrast
  | .saturation => a.saturation
  | .temperature => a.temperature
  | .sharpness => a.sharpness
  | .vignetteIntensity => a.vignetteIntensity
  | .vignetteFeather => a.vignetteFeather
  | .colorBalance => a.colorBalance

/-- `key.startsWith('vignette')` over the key names. -/
def AdjustmentKey.isVignette : AdjustmentKey → Bool
  | .vignetteIntensity => true
  | .vignetteFeather => true
  | _ => false

/-- The `intensityMap` object literal of `valueToText`
(AdjustmentPanel.tsx lines 46-52); any other key reads `undefined`, which
only ever happens through the `|| '60'` fallback. -/
def intensityMap : Nat → String
  | 20 => "subtly"
  | 40 => "slightly"
  | 60 => ""
  | 80 => "significantly"
  | 100 => "dramatically"
  | _ => ""

/-- The intensity-word computation of `valueToText` (lines 54-56):
`Object.keys(intensityMap)` enumerates the numeric keys in ascending order,
`find` takes the first key with `absoluteValue <= key`, and a failed search
falls back to the key 60 (the empty qualifier). -/
def sourceIntensity (absoluteValue : Nat) : String :=
  intensityMap ((([20, 40, 60, 80, 100] : List Nat).find?
    (fun k => absoluteValue ≤ k)).getD 60)

/-- `valueToText` (AdjustmentPanel.tsx lines 43-81): a descriptive phrase for
one slider, or `null` for a zero value and for the feather slider. -/
def valueToText (key : AdjustmentKey) (value : Int) : Option String :=
  if value = 0 then none
  else
    let intensity := sourceIntensity value.natAbs
    let direction := if 0 < value then "increase" else "decrease"
    match key with
    | .brightness => some (direction ++ " the brightness " ++ intensity)
    | .contrast => some (direction ++ " the contrast " ++ intensity)
    | .saturation => some (direction ++ " the color saturation " ++ intensity)
    | .sharpness => some (direction ++ " the sharpness " ++ intensity)
    | .temperature => some ("make the image's color temperature " ++ intensity
        ++ " " ++ (if 0 < value then "warmer" else "cooler"))
    | .vignetteIntensity => some ("add a " ++ intensity ++ " "
        ++ (if 0 < value then "dark" else "light") ++ " vignette")
    | .colorBalance => some ("shift the color balance " ++ intensity
        ++ " towards " ++ (if 0 < value then "green/cyan" else "magenta/red"))
    | .vignetteFeather => none

/-- The feather descriptor of `generatedPrompt`
(AdjustmentPanel.tsx lines 107-115). -/
def featherDesc (featherValue : Int) : String :=
  if featherValue ≤ 25 then "with a hard, distinct edge"
  else if featherValue ≤ 75 then "with a medium, soft feather"
  else "with a very soft, gradual feather"

/-- `generatedPrompt` (AdjustmentPanel.tsx lines 93-125): non-vignette keys
first in declaration order, then the combined vignette phrase, joined into a
sentence. -/
def generatedPrompt (a : Adjustments) : String :=
  let parts := adjustmentKeys.filterMap
    (fun key => if key.isVignette then none else valueToText key (a.get key))
  let parts :=
    if a.vignetteIntensity ≠ 0 then
      parts ++ [((valueToText .vignetteIntensity a.vignetteIntensity).getD "")
        ++ " " ++ featherDesc a.vignetteFeather]
    else parts
  if parts.isEmpty then ""
  else if parts.length = 1 then
    "Apply the following adjustment: " ++ parts.head?.getD "" ++ "."
  else
    "Apply the following adjustments: " ++ String.intercalate ", " parts.dropLast
      ++ ", and " ++ parts.getLast?.getD "" ++ "."

/-- Reference tier word, written from the claim's words: bucket the absolute
value (≤20 subtly, ≤40 slightly, ≤60 unqualified, ≤80 significantly,
≤100 dramatically). -/
def specTier (v : Int) : String :=
  if v.natAbs ≤ 20 then "subtly"
  else if v.natAbs ≤ 40 then "slightly"
  else if v.natAbs ≤ 60 then ""
  else if v.natAbs ≤ 80 then "significantly"
  else "dramatically"

/-- Reference phrase for one slider, written from the claim's words: a
zero slider contributes nothing, the intensity word comes from the tier
bucketing, and the direction word follows the sign. -/
def specPhrase (key : AdjustmentKey) (v : Int) : Option String :=
  if v = 0 then none
  else
    match key with
    | .brightness =>
        some ((if 0 < v then "increase" else "decrease")
          ++ " the brightness " ++ specTier v)
    | .contrast =>
        some ((if 0 < v then "increase" else "decrease")
          ++ " the contrast " ++ specTier v)
    | .saturation =>
        some ((if 0 < v then "increase" else "decrease")
          ++ " the color saturation " ++ specTier v)
    | .sharpness =>
        some ((if 0 < v then "increase" else "decrease")
          ++ " the sharpness " ++ specTier v)
    | .temperature =>
        some ("make the image's color temperature " ++ specTier v ++ " "
          ++ (if 0 < v then "warmer" else "cooler"))
    | .vignetteIntensity =>
        some ("add a " ++ specTier v ++ " "
          ++ (if 0 < v then "dark" else "light") ++ " vignette")
    | .colorBalance =>
        some ("shift the color balance " ++ specTier v ++ " towards "
          ++ (if 0 < v then "green/cyan" else "magenta/red"))
    | .vignetteFeather => none

/-- Reference feather descriptor, three tiers by the feather value. -/
def specFeather (f : Int) : String :=
  if f ≤ 25 then "with a hard, distinct edge"
  else if f ≤ 75 then "with a medium, soft feather"
  else "with a very soft, gradual feather"

/-- Reference translator, written from the claim's words: each non-zero
slider one phrase, the feather descriptor appended only when the vignette
intensity is non-zero, empty result for zero phrases, a singular sentence
for one phrase, comma-joined with a trailing "and" and final period for two
or more. -/
def generatedPromptSpec (a : Adjustments) : String :=
  let base := List.filterMap id
    [specPhrase .brightness a.brightness, specPhrase .contrast a.contrast,
     specPhrase .saturation a.saturation, specPhrase .temperature a.temperature,
     specPhrase .sharpness a.sharpness, specPhrase .colorBalance a.colorBalance]
  let phrases :=
    if a.vignetteIntensity = 0 then base
    else base ++ [((specPhrase .vignetteIntensity a.vignetteIntensity).getD "")
      ++ " " ++ specFeather a.vignetteFeather]
  match phrases with
  | [] => ""
  | [p] => "Apply the following adjustment: " ++ p ++ "."
  | ps => "Apply the following adjustments: "
      ++ String.intercalate ", " ps.dropLast ++ ", and " ++ ps.getLast?.getD ""
      ++ "."

/-- In the slider range the source's ascending-key search agrees with the
spec's five-tier bucketing. -/
theorem sourceIntensity_eq_tier (n : Nat) (h : n ≤ 100) :
    sourceIntensity n =
      (if n ≤ 20 then "subtly"
       else if n ≤ 40 then "slightly"
       else if n ≤ 60 then ""
       else if n ≤ 80 then "significantly"
       else "dramatically") := by
  interval_cases n <;> rfl

theorem valueToText_eq_specPhrase (key : AdjustmentKey) (v : Int)
    (hv : v.natAbs ≤ 100) :
    valueToText key v = specPhrase key v := by
  have hint : sourceIntensity v.natAbs = specTier v := by
    unfold specTier
    exact sourceIntensity_eq_tier v.natAbs hv
  unfold valueToText specPhrase
  by_cases h0 : v = 0
  · simp [h0]
  · cases key <;> simp [h0, hint]

/-- All sliders within the UI range: `[-100, 100]`, feather in `[0, 100]`. -/
def InRange (a : Adjustments) : Prop :=
  a.brightness.natAbs ≤ 100 ∧ a.contrast.natAbs ≤ 100 ∧
  a.saturation.natAbs ≤ 100 ∧ a.temperature.natAbs ≤ 100 ∧
  a.sharpness.natAbs ≤ 100 ∧ a.vignetteIntensity.natAbs ≤ 100 ∧
  0 ≤ a.vignetteFeather ∧ a.vignetteFeather ≤ 100 ∧
  a.colorBalance.natAbs ≤ 100

instance (a : Adjustments) : Decidable (InRange a) := by
  unfold InRange; infer_instance

/-- C6 — for every in-range slider record the translator output equals the
reference definition built from the claim's words: tier words by absolute
value, direction by sign, feather only with a non-zero vignette intensity,
and the empty/singular/comma-and-period combination rules. -/
theorem generatedPrompt_eq_reference (a : Adjustments) (h : InRange a) :
    generatedPrompt a = generatedPromptSpec a := by
  obtain ⟨h1, h2, h3, h4, h5, h6, _, _, h9⟩ := h
  have e1 := valueToText_eq_specPhrase .brightness a.brightness h1
  have e2 := valueToText_eq_specPhrase .contrast a.contrast h2
  have e3 := valueToText_eq_specPhrase .saturation a.saturation h3
  have e4 := valueToText_eq_specPhrase .temperature a.temperature h4
  have e5 := valueToText_eq_specPhrase .sharpness a.sharpness h5
  have e6 := valueToText_eq_specPhrase .vignetteIntensity a.vignetteIntensity h6
  have e9 := valueToText_eq_specPhrase .colorBalance a.colorBalance h9
  have hparts : adjustmentKeys.filterMap
      (fun key => if key.isVignette then none else valueToText key (a.get key)) =
      List.filterMap id
        [specPhrase .brightness a.brightness, specPhrase .contrast a.contrast,
         specPhrase .saturation a.saturation,
         specPhrase .temperature a.temperature,
         specPhrase .sharpness a.sharpness,
         specPhrase .colorBalance a.colorBalance] := by
    simp only [adjustmentKeys, List.filterMap_cons, List.filterMap_nil,
      AdjustmentKey.isVignette, Adjustments.get, if_true, if_false,
      Bool.false_eq_true, e1, e2, e3, e4, e5, e9, id]
  have hfd : ∀ f : Int, featherDesc f = specFeather f := fun _ => rfl
  unfold generatedPrompt generatedPromptSpec
  rw [hparts]
  by_cases hv : a.vignetteIntensity = 0
  · simp only [hv, ne_eq, not_true_eq_false, if_false, if_true]
    generalize List.filterMap id _ = L
    match L with
    | [] => rfl
    | [p] => rfl
    | p :: q :: rest => simp [List.isEmpty]
  · simp only [hv, ne_eq, not_false_eq_true, if_true, if_false, e6, hfd]
    generalize List.filterMap id _ = L
    match L with
    | [] => rfl
    | [p] => rfl
    | p :: q :: rest => simp [List.isEmpty]

/-- Witness for C6 at a concrete record: brightness 30, temperature −70,
vignette 50 with feather 10. -/
theorem generatedPrompt_eq_reference_witness :
    generatedPrompt
      { brightness := 30, contrast := 0, saturation := 0, temperature := -70,
        sharpness := 0, vignetteIntensity := 50, vignetteFeather := 10,
        colorBalance := 0 } =
    generatedPromptSpec
      { brightness := 30, contrast := 0, saturation := 0, temperature := -70,
        sharpness := 0, vignetteIntensity := 50, vignetteFeather := 10,
        colorBalance := 0 } :=
  generatedPrompt_eq_reference _ (by decide)

/-- The drawing performed by `cropImageToFile` (App.tsx lines 212-239): the
final output-canvas dimensions (the canvas is first sized to the bare crop
and then re-sized by the device pixel ratio), the source rectangle handed to
`drawImage`, and the destination rectangle. -/
structure CanvasDraw where
  canvasWidth : ℚ
  canvasHeight : ℚ
  srcX : ℚ
  srcY : ℚ
  srcW : ℚ
  srcH : ℚ
  dstW : ℚ
  dstH : ℚ
deriving DecidableEq, Repr

/-- `cropImageToFile` (App.tsx lines 212-239) as the draw it performs, for a
rendered image of natural size `naturalWidth × naturalHeight` displayed at
`width × height`. -/
def cropImageToFile (naturalWidth naturalHeight width height : ℚ)
    (crop : PixelCrop) ( pixelRatio : ℚ) : CanvasDraw :=
  let scaleX := naturalWidth / width
  let scaleY := naturalHeight / height
  { canvasWidth := crop.width * pixelRatio
    canvasHeight := crop.height * pixelRatio
    srcX := crop.x * scaleX
    srcY := crop.y * scaleY
    srcW := crop.width * scaleX
    srcH := crop.height * scaleY
    dstW := crop.width
    dstH := crop.height }

/-- C2 counterexample: with natural size 200×200 displayed at 100×100 (scale
factor S = 2), a 10×10 crop and device pixel ratio 1, the claim predicts an
output raster of 10·2·1 = 20 pixels per side, but the code's canvas is
10·1 = 10 pixels per side. -/
theorem cropImageToFile_claim_counterexample :
    ¬ ((cropImageToFile 200 200 100 100 ⟨0, 0, 10, 10⟩ 1).canvasWidth =
        10 * (200 / 100) * 1 ∧
      (cropImageToFile 200 200 100 100 ⟨0, 0, 10, 10⟩ 1).canvasHeight =
        10 * (200 / 100) * 1) := by
  unfold cropImageToFile
  norm_num

/-- C2 amended — the output raster of the crop is `W·devicePixelRatio ×
H·devicePixelRatio`; the natural/displayed scale factors only determine the
source rectangle sampled (`W·Sx × H·Sy` at offset `(x·Sx, y·Sy)`). -/
theorem cropImageToFile_output_dimensions
    (naturalWidth naturalHeight width height : ℚ) (crop : PixelCrop)
    ( pixelRatio : ℚ) :
    (cropImageToFile naturalWidth naturalHeight width height crop pixelRatio).canvasWidth =
      crop.width * pixelRatio ∧
    (cropImageToFile naturalWidth naturalHeight width height crop pixelRatio).canvasHeight =
      crop.height * pixelRatio ∧
    (cropImageToFile naturalWidth naturalHeight width height crop pixelRatio).srcX =
      crop.x * (naturalWidth / width) ∧
    (cropImageToFile naturalWidth naturalHeight width height crop pixelRatio).srcY =
      crop.y * (naturalHeight / height) ∧
    (cropImageToFile naturalWidth naturalHeight width height crop pixelRatio).srcW =
      crop.width * (naturalWidth / width) ∧
    (cropImageToFile naturalWidth naturalHeight width height crop pixelRatio).srcH =
      crop.height * (naturalHeight / height) :=
  ⟨rfl, rfl, rfl, rfl, rfl, rfl⟩

/-- `DPI = 300` (App.tsx line 296). -/
def DPI : ℚ := 300

/-- `MM_TO_IN = 0.0393701` (App.tsx line 303). -/
def MM_TO_IN : ℚ := 0.0393701

/-- The three page presets of `handleSheetGenerate`. -/
inductive SheetSize
  | s4x6
  | s5x7
  | sA4
deriving DecidableEq, Repr

/-- Sheet orientation. -/
inductive SheetLayout
  | portrait
  | landscape
deriving DecidableEq, Repr

/-- The `SIZES` preset table in inches (App.tsx lines 297-301). -/
def SIZES : SheetSize → ℚ × ℚ
  | .s4x6 => (4, 6)
  | .s5x7 => (5, 7)
  | .sA4 => (8.27, 11.69)

/-- Page inches after the landscape swap (App.tsx lines 305-310). -/
def sheetInches (sheetSize : SheetSize) (layout : SheetLayout) : ℚ × ℚ :=
  if layout = .landscape then ((SIZES sheetSize).2, (SIZES sheetSize).1)
  else SIZES sheetSize

/-- `PASSPORT_SIZE_MM.w * MM_TO_IN * DPI` (App.tsx line 314). -/
def photoW_px : ℚ := 35 * MM_TO_IN * DPI

/-- `PASSPORT_SIZE_MM.h * MM_TO_IN * DPI` (App.tsx line 315). -/
def photoH_px : ℚ := 45 * MM_TO_IN * DPI

/-- `0.1 * DPI` (App.tsx line 316). -/
def margin_px : ℚ := 0.1 * DPI

/-- The row-wrap step at the top of each loop iteration (App.tsx lines
340-343): if the current photo would go off the right edge, reset `x` to the
margin and advance `y` by one row. -/
def wrapPos (sheetW_px : ℚ) (x y : ℚ) : ℚ × ℚ :=
  if x + photoW_px + margin_px > sheetW_px
  then (margin_px, y + photoH_px + margin_px) else (x, y)

/-- The placement loop of `handleSheetGenerate` (App.tsx lines 334-358):
each iteration first wraps if needed, then stops for good if the (possibly
new) row would go off the bottom edge, otherwise records a placement and
advances `x` by one item plus margin. -/
def placeLoop (sheetW_px sheetH_px : ℚ) : ℚ → ℚ → Nat → List (ℚ × ℚ)
  | _, _, 0 => []
  | x, y, n + 1 =>
    if (wrapPos sheetW_px x y).2 + photoH_px + margin_px > sheetH_px then []
    else (wrapPos sheetW_px x y) ::
      placeLoop sheetW_px sheetH_px
        ((wrapPos sheetW_px x y).1 + photoW_px + margin_px)
        (wrapPos sheetW_px x y).2 n

/-- The top-left corners of the photos drawn for one sheet request. -/
def sheetPlacements (sheetSize : SheetSize) (layout : SheetLayout)
    (photoCount : Nat) : List (ℚ × ℚ) :=
  placeLoop ((sheetInches sheetSize layout).1 * DPI)
    ((sheetInches sheetSize layout).2 * DPI) margin_px margin_px photoCount

/-- The 2D-context operations issued while composing a sheet. -/
inductive DrawOp
  | fillPage (w h : ℚ)
  | strokeRect (x y w h : ℚ)
  | drawImage (x y w h : ℚ)
deriving DecidableEq, Repr

/-- The draw sequence of `handleSheetGenerate`: white page fill, then per
placed photo a light-gray cut-guide outline followed by the image fill. -/
def sheetDrawOps (sheetSize : SheetSize) (layout : SheetLayout)
    (photoCount : Nat) : List DrawOp :=
  DrawOp.fillPage ((sheetInches sheetSize layout).1 * DPI)
      ((sheetInches sheetSize layout).2 * DPI) ::
    ((sheetPlacements sheetSize layout photoCount).map
      (fun p => [DrawOp.strokeRect p.1 p.2 photoW_px photoH_px,
                 DrawOp.drawImage p.1 p.2 photoW_px photoH_px])).flatten

/-- How many photos fit on each page preset (2×3, 3×2, 3×3, 4×2, 5×6, 7×4
grids at 300 DPI with 35×45 mm photos and 0.1 in margins). -/
def sheetCapacity : SheetSize → SheetLayout → Nat
  | .s4x6, .portrait => 6
  | .s4x6, .landscape => 6
  | .s5x7, .portrait => 9
  | .s5x7, .landscape => 8
  | .sA4, .portrait => 30
  | .sA4, .landscape => 28

theorem placeLoop_length_le (W H : ℚ) :
    ∀ (x y : ℚ) (n : Nat), (placeLoop W H x y n).length ≤ n := by
  intro x y n
  induction n generalizing x y with
  | zero => simp [placeLoop]
  | succ n ih =>
    unfold placeLoop
    split
    · simp
    · simpa using ih _ _

/-- Once the loop has broken early, giving it more copies changes nothing:
the break point only depends on the geometry, not on the requested count. -/
theorem placeLoop_saturates (W H : ℚ) :
    ∀ (n m : Nat) (x y : ℚ), n ≤ m →
      (placeLoop W H x y n).length < n →
      placeLoop W H x y m = placeLoop W H x y n := by
  intro n
  induction n with
  | zero =>
    intro m x y _ h
    simp [placeLoop] at h
  | succ n ih =>
    intro m x y hm h
    obtain ⟨m', rfl⟩ : ∃ m', m = m' + 1 := ⟨m - 1, by omega⟩
    by_cases hc : (wrapPos W x y).2 + photoH_px + margin_px > H
    · simp only [placeLoop, if_pos hc]
    · simp only [placeLoop, if_neg hc] at h ⊢
      simp only [List.length_cons, Nat.add_lt_add_iff_right] at h
      rw [ih m' _ _ (by omega) h]

@[simp] theorem sheetInches_s4x6_portrait :
    sheetInches .s4x6 .portrait = (4, 6) := rfl

@[simp] theorem sheetInches_s4x6_landscape :
    sheetInches .s4x6 .landscape = (6, 4) := rfl

@[simp] theorem sheetInches_s5x7_portrait :
    sheetInches .s5x7 .portrait = (5, 7) := rfl

@[simp] theorem sheetInches_s5x7_landscape :
    sheetInches .s5x7 .landscape = (7, 5) := rfl

@[simp] theorem sheetInches_sA4_portrait :
    sheetInches .sA4 .portrait = (8.27, 11.69) := rfl

@[simp] theorem sheetInches_sA4_landscape :
    sheetInches .sA4 .landscape = (11.69, 8.27) := rfl

/-- One more copy than the capacity still only places `capacity` photos, for
every preset and orientation (checked by evaluating the loop). -/
theorem sheetPlacements_at_capacity (sheetSize : SheetSize) (layout : SheetLayout) :
    (sheetPlacements sheetSize layout (sheetCapacity sheetSize layout + 1)).length =
      sheetCapacity sheetSize layout := by
  cases sheetSize <;> cases layout <;>
    norm_num [sheetPlacements, sheetCapacity, placeLoop,
      wrapPos, photoW_px, photoH_px, margin_px, DPI, MM_TO_IN]

/-- The first loop iteration always places a photo at the margin offset:
the wrap test fails at `x = margin` and the bottom test fails at
`y = margin` on every preset in both orientations. -/
theorem placeLoop_first_fits (sheetSize : SheetSize) (layout : SheetLayout)
    (k : Nat) :
    sheetPlacements sheetSize layout (k + 1) =
      (margin_px, margin_px) ::
        placeLoop ((sheetInches sheetSize layout).1 * DPI)
          ((sheetInches sheetSize layout).2 * DPI)
          (margin_px + photoW_px + margin_px) margin_px k := by
  have hW : ¬ (margin_px + photoW_px + margin_px >
      (sheetInches sheetSize layout).1 * DPI) := by
    cases sheetSize <;> cases layout <;>
      norm_num [photoW_px, margin_px, DPI, MM_TO_IN]
  have hH : ¬ ((margin_px : ℚ) + photoH_px + margin_px >
      (sheetInches sheetSize layout).2 * DPI) := by
    cases sheetSize <;> cases layout <;>
      norm_num [photoH_px, margin_px, DPI, MM_TO_IN]
  have hwrap : wrapPos ((sheetInches sheetSize layout).1 * DPI)
      margin_px margin_px = (margin_px, margin_px) := by
    unfold wrapPos
    exact if_neg hW
  unfold sheetPlacements
  rw [placeLoop, hwrap]
  dsimp only
  rw [if_neg hH]

/-- C7 — sheet composition places at most the requested number of items;
once it places fewer than requested (the silent partial-fill break), asking
for more copies yields the identical placement list, so a copy count above
the page capacity places strictly fewer items than requested without error;
and the 4x6 portrait single-copy sheet is exactly one cut-guide outline plus
image fill at the top-left margin offset. -/
theorem sheet_composition_spec (sheetSize : SheetSize) (layout : SheetLayout)
    (n m : Nat) :
    (sheetPlacements sheetSize layout n).length ≤ n ∧
    (n ≤ m → (sheetPlacements sheetSize layout n).length < n →
      sheetPlacements sheetSize layout m = sheetPlacements sheetSize layout n) ∧
    (sheetCapacity sheetSize layout < n →
      (sheetPlacements sheetSize layout n).length < n) ∧
    sheetPlacements .s4x6 .portrait 1 = [(margin_px, margin_px)] ∧
    sheetDrawOps .s4x6 .portrait 1 =
      [DrawOp.fillPage (4 * DPI) (6 * DPI),
       DrawOp.strokeRect margin_px margin_px photoW_px photoH_px,
       DrawOp.drawImage margin_px margin_px photoW_px photoH_px] := by
  refine ⟨placeLoop_length_le _ _ _ _ n, ?_, ?_, ?_, ?_⟩
  · intro hnm h
    exact placeLoop_saturates _ _ n m _ _ hnm h
  · intro hc
    have hsat := placeLoop_saturates
      ((sheetInches sheetSize layout).1 * DPI)
      ((sheetInches sheetSize layout).2 * DPI)
      (sheetCapacity sheetSize layout + 1) n margin_px margin_px
      (by omega)
      (by
        have := sheetPlacements_at_capacity sheetSize layout
        unfold sheetPlacements at this
        rw [this]
        omega)
    unfold sheetPlacements
    rw [hsat]
    have := sheetPlacements_at_capacity sheetSize layout
    unfold sheetPlacements at this
    rw [this]
    omega
  · rw [placeLoop_first_fits .s4x6 .portrait 0]
    rfl
  · unfold sheetDrawOps
    rw [placeLoop_first_fits .s4x6 .portrait 0]
    rfl

/-- Witness for C7: requesting 9 copies on a 4x6 portrait page places only
the 6 that fit, and requesting 20 places the same 6. -/
theorem sheet_composition_spec_witness :
    (sheetPlacements .s4x6 .portrait 9).length < 9 ∧
    sheetPlacements .s4x6 .portrait 20 = sheetPlacements .s4x6 .portrait 9 := by
  have h9 := (sheet_composition_spec .s4x6 .portrait 9 20).2.2.1 (by norm_num [sheetCapacity])
  have h20 := (sheet_composition_spec .s4x6 .portrait 9 20).2.1 (by norm_num) h9
  exact ⟨h9, h20⟩

/-- C10 — every sheet request for at least one copy places at least one
photo, at the top-left margin offset: with the fixed constants the first
item's wrap and bottom checks pass on all three presets in both
orientations, so a committed sheet never contains zero photos. -/
theorem sheet_first_photo_always_placed (sheetSize : SheetSize)
    (layout : SheetLayout) (n : Nat) (h : 1 ≤ n) :
    1 ≤ (sheetPlacements sheetSize layout n).length ∧
    (sheetPlacements sheetSize layout n).head? = some (margin_px, margin_px) := by
  obtain ⟨k, rfl⟩ : ∃ k, n = k + 1 := ⟨n - 1, by omega⟩
  rw [placeLoop_first_fits sheetSize layout k]
  simp

/-- Witness for C10: one copy on an A4 landscape page places one photo at
the margin offset. -/
theorem sheet_first_photo_always_placed_witness :
    1 ≤ (sheetPlacements .sA4 .landscape 1).length ∧
    (sheetPlacements .sA4 .landscape 1).head? = some (margin_px, margin_px) :=
  sheet_first_photo_always_placed .sA4 .landscape 1 (by norm_num)

/-- The `useEffect` on `activeTab` (App.tsx lines 78-88): entering the
passport tab starts the cropping step and locks the 7:9 aspect; entering any
other tab forces the workflow to `idle`, discards the cropped passport image
and frees the aspect. -/
def applyTabEffect (s : AppState) : AppState :=
  if s.activeTab = Tab.passport then
    resetTransientState
      { s with
          passportStep := PassportStep.cropping
          aspect := some (7 / 9) }
  else
    { s with
        passportStep := PassportStep.idle
        passportCroppedImage := none
        aspect := none }

/-- A tab click (`setActiveTab`); the effect body re-runs only when the tab
value actually changes. -/
def setActiveTab (s : AppState) (t : Tab) : AppState :=
  if s.activeTab = t then s else applyTabEffect { s with activeTab := t }

/-- `handleImageUpload` (App.tsx lines 127-135); it also switches the tab to
`retouch`, which re-triggers the tab effect when the previous tab
differed. -/
def handleImageUpload (s : AppState) (file : Image) : AppState :=
  let s1 :=
    { resetTransientState
      { s with
          error := none
          history := [file]
          historyIndex := 0
          activeTab := Tab.retouch } with
        passportStep := PassportStep.idle
        passportCroppedImage := none }
  if s.activeTab = Tab.retouch then s1 else applyTabEffect s1

/-- `handleUploadNew` (App.tsx lines 400-408). -/
def handleUploadNew (s : AppState) : AppState :=
  { resetTransientState
    { s with
        history := []
        historyIndex := -1
        error := none
        prompt := "" } with
      passportStep := PassportStep.idle
      passportCroppedImage := none }

/-- `handleGenerate` (App.tsx lines 137-168), with the generator call's
outcome passed in (`none` models a rejected call); the three validation
branches fire before any call is issued. -/
def handleGenerate (s : AppState) (outcome : Option Image) : AppState :=
  if (currentImage s).isNone then
    { s with error := some "No image loaded to edit." }
  else if s.prompt.trim = "" then
    { s with error := some "Please enter a description for your edit." }
  else if s.editHotspot.isNone then
    { s with error := some "Please click on the image to select an area to edit." }
  else
    match outcome with
    | some newImageFile =>
        { addImageToHistory { s with error := none } newImageFile false with
            prompt := ""
            isLoading := false }
    | none =>
        { s with
            error := some "Failed to generate the image."
            isLoading := false }

/-- `handleApplyFilter` (App.tsx lines 170-182). -/
def handleApplyFilter (s : AppState) (outcome : Option Image) : AppState :=
  if (currentImage s).isNone then s
  else
    match outcome with
    | some f =>
        { addImageToHistory { s with error := none } f false with
            isLoading := false }
    | none =>
        { s with
            error := some "Failed to apply the filter."
            isLoading := false }

/-- `handleApplyAdjustment` (App.tsx lines 184-196); the commit resets the
adjustment preview. -/
def handleApplyAdjustment (s : AppState) (outcome : Option Image) : AppState :=
  if (currentImage s).isNone then s
  else
    match outcome with
    | some f =>
        { addImageToHistory { s with error := none } f true with
            isLoading := false }
    | none =>
        { s with
            error := some "Failed to apply adjustment."
            isLoading := false }

/-- `handleAutoAdjust` (App.tsx lines 198-210). -/
def handleAutoAdjust (s : AppState) (outcome : Option Image) : AppState :=
  if (currentImage s).isNone then s
  else
    match outcome with
    | some f =>
        { addImageToHistory { s with error := none } f true with
            isLoading := false }
    | none =>
        { s with
            error := some "Failed to auto-adjust."
            isLoading := false }

/-- `handleUpscale` (App.tsx lines 251-263). -/
def handleUpscale (s : AppState) (outcome : Option Image) : AppState :=
  if (currentImage s).isNone then s
  else
    match outcome with
    | some f =>
        { addImageToHistory { s with error := none } f false with
            isLoading := false }
    | none =>
        { s with
            error := some "Failed to upscale image."
            isLoading := false }

/-- `handleApplyCrop` (App.tsx lines 241-249): synchronous, guarded on a
completed crop and a rendered image; `none` models `cropImageToFile`
throwing. -/
def handleApplyCrop (s : AppState) (outcome : Option Image) : AppState :=
  if s.completedCrop.isNone || (currentImage s).isNone then s
  else
    match outcome with
    | some newImageFile => addImageToHistory s newImageFile false
    | none => { s with error := some "Failed to apply crop." }

/-- `handlePassportCrop` (App.tsx lines 265-275): on success stores the
cropped file as the workflow image, moves to the `background` step and
clears the transient state. -/
def handlePassportCrop (s : AppState) (outcome : Option Image) : AppState :=
  if s.completedCrop.isNone || (currentImage s).isNone then s
  else
    match outcome with
    | some croppedFile =>
        resetTransientState
          { s with
              passportCroppedImage := some croppedFile
              passportStep := PassportStep.background }
    | none => { s with error := some "Failed to crop for passport." }

/-- `handlePassportBgChange` (App.tsx lines 277-290): guarded on the stored
cropped image; on success commits the recolored photo and moves to the
`sheet` step. -/
def handlePassportBgChange (s : AppState) (outcome : Option Image) : AppState :=
  if s.passportCroppedImage.isNone then s
  else
    match outcome with
    | some f =>
        { addImageToHistory { s with error := none } f false with
            isLoading := false
            passportStep := PassportStep.sheet }
    | none =>
        { s with
            error := some "Failed to change passport background."
            isLoading := false }

/-- The preset's name as it appears in the sheet file name. -/
def sheetSizeName : SheetSize → String
  | .s4x6 => "4x6"
  | .s5x7 => "5x7"
  | .sA4 => "A4"

/-- The orientation's name as it appears in the sheet file name. -/
def sheetLayoutName : SheetLayout → String
  | .portrait => "portrait"
  | .landscape => "landscape"

/-- The sheet file committed on success
(`passport-sheet-<size>-<layout>-...jpg`, content opaque here). -/
def sheetFile (sheetSize : SheetSize) (layout : SheetLayout) : Image :=
  { name := "passport-sheet-" ++ sheetSizeName sheetSize ++ "-"
      ++ sheetLayoutName layout ++ ".jpg"
    data := "sheet" }

/-- `handleSheetGenerate` (App.tsx lines 292-370): guarded on a current
image URL; `decodeOk` tells whether the source raster decoded (`img.onload`
versus `img.onerror`). On success the sheet is committed and the workflow
returns to `idle`; on decode failure only the error and busy flag change. -/
def handleSheetGenerate (s : AppState) (sheetSize : SheetSize)
    (layout : SheetLayout) (photoCount : Nat) (decodeOk : Bool) : AppState :=
  if (currentImage s).isNone then s
  else if decodeOk then
    { addImageToHistory s (sheetFile sheetSize layout) false with
        isLoading := false
        passportStep := PassportStep.idle }
  else
    { s with
        isLoading := false
        error := some "Could not load image to generate sheet." }

/-- `handlePassportReset` (App.tsx lines 372-376). -/
def handlePassportReset (s : AppState) : AppState :=
  resetTransientState
    { s with
        passportStep := PassportStep.cropping
        passportCroppedImage := none }

/-- The discrete user / completion events the orchestrator reacts to.
Asynchronous generator calls are folded into one atomic event carrying
their outcome (`none` = the call failed). -/
inductive Event
  | setTab (t : Tab)
  | upload (file : Image)
  | uploadNew
  | setPrompt (p : String)
  | imageClick (display : ℚ × ℚ) (source : Int × Int)
  | setCompletedCrop (c : Option PixelCrop)
  | setAdjustments (a : Adjustments)
  | dismissError
  | generate (outcome : Option Image)
  | applyFilter (outcome : Option Image)
  | applyAdjustment (outcome : Option Image)
  | autoAdjust (outcome : Option Image)
  | upscale (outcome : Option Image)
  | applyCrop (outcome : Option Image)
  | passportCropConfirm (outcome : Option Image)
  | passportBgChange (outcome : Option Image)
  | sheetGenerate (sheetSize : SheetSize) (layout : SheetLayout)
      (photoCount : Nat) (decodeOk : Bool)
  | passportReset
  | undo
  | redo
  | resetHistory
deriving DecidableEq, Repr

/-- The `isCropping` flag the orchestrator passes to its panels
(App.tsx lines 603 and 607): `!!completedCrop?.width && completedCrop.width > 0`. -/
def isCroppingFlag (s : AppState) : Prop :=
  0 < (s.completedCrop.map PixelCrop.width).getD 0

instance (s : AppState) : Decidable (isCroppingFlag s) := by
  unfold isCroppingFlag; infer_instance

/-- One orchestrator step. Modelled from the spec for the missing
`PassportPanel` source: the panel's crop-confirm control is disabled unless
the `isCropping` flag holds, so a crop confirmation reaches
`handlePassportCrop` only when the completed rectangle has positive
width. All other dispatch is direct from App.tsx. -/
def step (s : AppState) : Event → AppState
  | .setTab t => setActiveTab s t
  | .upload file => handleImageUpload s file
  | .uploadNew => handleUploadNew s
  | .setPrompt p => { s with prompt := p }
  | .imageClick d src =>
      if s.activeTab = Tab.retouch then
        { s with displayHotspot := some d, editHotspot := some src }
      else s
  | .setCompletedCrop c => { s with completedCrop := c }
  | .setAdjustments a => { s with adjustments := a }
  | .dismissError => { s with error := none }
  | .generate o => handleGenerate s o
  | .applyFilter o => handleApplyFilter s o
  | .applyAdjustment o => handleApplyAdjustment s o
  | .autoAdjust o => handleAutoAdjust s o
  | .upscale o => handleUpscale s o
  | .applyCrop o => handleApplyCrop s o
  | .passportCropConfirm o =>
      if isCroppingFlag s then handlePassportCrop s o else s
  | .passportBgChange o => handlePassportBgChange s o
  | .sheetGenerate a b c d => handleSheetGenerate s a b c d
  | .passportReset => handlePassportReset s
  | .undo => handleUndo s
  | .redo => handleRedo s
  | .resetHistory => handleReset s

/-- Run a list of events from the freshly mounted app. -/
def runEvents (events : List Event) : AppState :=
  events.foldl step initialState

/-- The states the app can actually be in. -/
def Reachable (s : AppState) : Prop :=
  ∃ events, runEvents events = s

@[simp] theorem addImageToHistory_passportStep (s : AppState) (f : Image)
    (b : Bool) :
    (addImageToHistory s f b).passportStep = s.passportStep := by
  cases b <;> rfl

@[simp] theorem addImageToHistory_passportCroppedImage (s : AppState)
    (f : Image) (b : Bool) :
    (addImageToHistory s f b).passportCroppedImage = s.passportCroppedImage := by
  cases b <;> rfl

/-- The cropped passport image is present whenever the workflow is in the
`background` or `sheet` step. -/
def PassportImgInv (s : AppState) : Prop :=
  (s.passportStep = PassportStep.background ∨
    s.passportStep = PassportStep.sheet) →
  s.passportCroppedImage.isSome = true

theorem passportImgInv_of_fields_eq (s t : AppState)
    (h1 : t.passportStep = s.passportStep)
    (h2 : t.passportCroppedImage = s.passportCroppedImage)
    (h : PassportImgInv s) : PassportImgInv t := by
  unfold PassportImgInv at h ⊢
  rw [h1, h2]
  exact h

theorem step_preserves_passportImgInv (e : Event) (s : AppState)
    (h : PassportImgInv s) : PassportImgInv (step s e) := by
  cases e with
  | setTab t =>
    simp only [step]
    unfold setActiveTab applyTabEffect
    split
    · exact h
    · split
      · unfold PassportImgInv
        intro hst
        simp at hst
      · unfold PassportImgInv
        intro hst
        simp at hst
  | upload file =>
    simp only [step]
    unfold handleImageUpload applyTabEffect
    dsimp only
    split
    · unfold PassportImgInv
      intro hst
      simp at hst
    · split
      · rename_i hcond
        simp at hcond
      · unfold PassportImgInv
        intro hst
        simp at hst
  | uploadNew =>
    simp only [step]
    unfold handleUploadNew
    unfold PassportImgInv
    intro hst
    simp at hst
  | setPrompt p => exact passportImgInv_of_fields_eq s _ rfl rfl h
  | imageClick d src =>
    simp only [step]
    split
    · exact passportImgInv_of_fields_eq s _ rfl rfl h
    · exact h
  | setCompletedCrop c => exact passportImgInv_of_fields_eq s _ rfl rfl h
  | setAdjustments a => exact passportImgInv_of_fields_eq s _ rfl rfl h
  | dismissError => exact passportImgInv_of_fields_eq s _ rfl rfl h
  | generate o =>
    simp only [step]
    unfold handleGenerate
    split
    · exact h
    · split
      · exact h
      · split
        · exact h
        · cases o with
          | some f => exact passportImgInv_of_fields_eq s _ (by simp) (by simp) h
          | none => exact passportImgInv_of_fields_eq s _ rfl rfl h
  | applyFilter o =>
    simp only [step]
    unfold handleApplyFilter
    split
    · exact h
    · cases o with
      | some f => exact passportImgInv_of_fields_eq s _ (by simp) (by simp) h
      | none => exact passportImgInv_of_fields_eq s _ rfl rfl h
  | applyAdjustment o =>
    simp only [step]
    unfold handleApplyAdjustment
    split
    · exact h
    · cases o with
      | some f => exact passportImgInv_of_fields_eq s _ (by simp) (by simp) h
      | none => exact passportImgInv_of_fields_eq s _ rfl rfl h
  | autoAdjust o =>
    simp only [step]
    unfold handleAutoAdjust
    split
    · exact h
    · cases o with
      | some f => exact passportImgInv_of_fields_eq s _ (by simp) (by simp) h
      | none => exact passportImgInv_of_fields_eq s _ rfl rfl h
  | upscale o =>
    simp only [step]
    unfold handleUpscale
    split
    · exact h
    · cases o with
      | some f => exact passportImgInv_of_fields_eq s _ (by simp) (by simp) h
      | none => exact passportImgInv_of_fields_eq s _ rfl rfl h
  | applyCrop o =>
    simp only [step]
    unfold handleApplyCrop
    split
    · exact h
    · cases o with
      | some f => exact passportImgInv_of_fields_eq s _ (by simp) (by simp) h
      | none => exact passportImgInv_of_fields_eq s _ rfl rfl h
  | passportCropConfirm o =>
    simp only [step]
    split
    · unfold handlePassportCrop
      split
      · exact h
      · cases o with
        | some f =>
          unfold PassportImgInv
          intro _
          simp
        | none => exact passportImgInv_of_fields_eq s _ rfl rfl h
    · exact h
  | passportBgChange o =>
    simp only [step]
    unfold handlePassportBgChange
    by_cases hg : s.passportCroppedImage.isNone = true
    · rw [if_pos hg]
      exact h
    · rw [if_neg hg]
      cases o with
      | some f =>
        unfold PassportImgInv
        intro _
        simp only [addImageToHistory_passportCroppedImage]
        cases hcase : s.passportCroppedImage with
        | none => rw [hcase] at hg; simp at hg
        | some v => simp
      | none => exact passportImgInv_of_fields_eq s _ rfl rfl h
  | sheetGenerate a b c d =>
    simp only [step]
    unfold handleSheetGenerate
    split
    · exact h
    · split
      · unfold PassportImgInv
        intro hst
        simp at hst
      · exact passportImgInv_of_fields_eq s _ rfl rfl h
  | passportReset =>
    simp only [step]
    unfold handlePassportReset PassportImgInv
    intro hst
    simp at hst
  | undo =>
    simp only [step]
    unfold handleUndo
    split
    · exact passportImgInv_of_fields_eq s _ (by simp) (by simp) h
    · exact h
  | redo =>
    simp only [step]
    unfold handleRedo
    split
    · exact passportImgInv_of_fields_eq s _ (by simp) (by simp) h
    · exact h
  | resetHistory =>
    simp only [step]
    unfold handleReset
    split
    · exact passportImgInv_of_fields_eq s _ (by simp) (by simp) h
    · exact h

theorem reachable_passportImgInv (s : AppState) (hs : Reachable s) :
    PassportImgInv s := by
  obtain ⟨events, rfl⟩ := hs
  unfold runEvents
  have hgen : ∀ (l : List Event) (t : AppState),
      PassportImgInv t → PassportImgInv (l.foldl step t) := by
    intro l
    induction l with
    | nil => intro t ht; exact ht
    | cons e l ih => intro t ht; exact ih _ (step_preserves_passportImgInv e t ht)
  refine hgen events initialState ?_
  unfold PassportImgInv initialState
  intro hst
  simp at hst

/-- A full passport run: upload, enter passport mode, complete a 70×90
crop, confirm it, recolor the background, and generate the sheet. -/
def passportDemoRun : List Event :=
  [Event.upload ⟨"photo.png", "p"⟩,
   Event.setTab Tab.passport,
   Event.setCompletedCrop (some ⟨0, 0, 70, 90⟩),
   Event.passportCropConfirm (some ⟨"passport-crop.png", "c"⟩),
   Event.passportBgChange (some ⟨"passport.png", "b"⟩),
   Event.sheetGenerate SheetSize.s4x6 SheetLayout.portrait 4 true]

/-- C3 counterexample — the claimed "if and only if" fails on a reachable
state: after a completed sheet generation the workflow step is back to
`idle` but `handleSheetGenerate` never clears the cropped passport image,
so the image is still present. -/
theorem passport_cropped_image_iff_counterexample :
    ¬ (∀ s : AppState, Reachable s →
        (s.passportCroppedImage.isSome = true ↔
          (s.passportStep = PassportStep.background ∨
            s.passportStep = PassportStep.sheet))) := by
  intro hclaim
  have h := hclaim (runEvents passportDemoRun) ⟨passportDemoRun, rfl⟩
  have himg : (runEvents passportDemoRun).passportCroppedImage =
      some ⟨"passport-crop.png", "c"⟩ := rfl
  have hstep : (runEvents passportDemoRun).passportStep = PassportStep.idle := rfl
  rw [himg, hstep] at h
  simp at h

/-- C3 amended — in every reachable state the cropped passport image is
present whenever the workflow step is `background` or `sheet`, and the image
is cleared by a workflow reset, by switching to a non-passport tab, by an
upload and by `Upload New`; but a completed sheet generation returns the
step to `idle` without clearing the image (only the forward implication of
the claimed equivalence holds). -/
theorem passport_cropped_image_invariant (s : AppState) (hs : Reachable s) :
    ((s.passportStep = PassportStep.background ∨
        s.passportStep = PassportStep.sheet) →
      s.passportCroppedImage.isSome = true) ∧
    (step s Event.passportReset).passportCroppedImage = none ∧
    (∀ t, t ≠ Tab.passport → s.activeTab ≠ t →
      (step s (Event.setTab t)).passportCroppedImage = none) ∧
    (∀ file, (step s (Event.upload file)).passportCroppedImage = none) ∧
    (step s Event.uploadNew).passportCroppedImage = none := by
  refine ⟨reachable_passportImgInv s hs, rfl, ?_, ?_, rfl⟩
  · intro t ht hst
    simp only [step]
    unfold setActiveTab applyTabEffect
    rw [if_neg hst, if_neg (by simpa using ht)]
  · intro file
    simp only [step]
    unfold handleImageUpload
    dsimp only
    split
    · rfl
    · unfold applyTabEffect
      rw [if_neg (by simp)]

/-- The passport run up to the crop confirmation: the workflow sits in the
`background` step with the cropped image stored. -/
def passportDemoCrop : List Event :=
  [Event.upload ⟨"photo.png", "p"⟩,
   Event.setTab Tab.passport,
   Event.setCompletedCrop (some ⟨0, 0, 70, 90⟩),
   Event.passportCropConfirm (some ⟨"passport-crop.png", "c"⟩)]

/-- Witness for the amended C3 at the concrete reachable state after a
confirmed passport crop: the image is present in the `background` step and
a workflow reset clears it. -/
theorem passport_cropped_image_invariant_witness :
    (runEvents passportDemoCrop).passportCroppedImage.isSome = true ∧
    (step (runEvents passportDemoCrop) Event.passportReset).passportCroppedImage =
      none := by
  have h := passport_cropped_image_invariant (runEvents passportDemoCrop)
    ⟨passportDemoCrop, rfl⟩
  exact ⟨h.1 (Or.inl rfl), h.2.1⟩

/-- C8 — activating the passport tab from any other tab starts the
workflow's `cropping` step and locks the transient crop aspect to exactly
7/9; and in every state whose completed crop rectangle has zero width —
in particular while on the passport tab in the `cropping` step — the
orchestrator's `isCropping` flag is down, so the (spec-modelled) panel
gating rejects a crop confirmation: the state is fully unchanged, the
workflow step stays where it was (`cropping`) and no cropped-passport image
is stored. -/
theorem passport_activation_and_zero_width_crop (s : AppState) (c : PixelCrop)
    (o : Option Image) :
    (s.activeTab ≠ Tab.passport →
      (step s (Event.setTab Tab.passport)).passportStep = PassportStep.cropping ∧
      (step s (Event.setTab Tab.passport)).aspect = some (7 / 9)) ∧
    (s.completedCrop = some c → c.width = 0 →
      step s (Event.passportCropConfirm o) = s ∧
      (step s (Event.passportCropConfirm o)).passportStep = s.passportStep ∧
      (step s (Event.passportCropConfirm o)).passportCroppedImage =
        s.passportCroppedImage) := by
  constructor
  · intro ht
    have htab : step s (Event.setTab Tab.passport) =
        resetTransientState
          { { s with activeTab := Tab.passport } with
              passportStep := PassportStep.cropping
              aspect := some (7 / 9) } := by
      simp only [step]
      unfold setActiveTab
      rw [if_neg ht]
      unfold applyTabEffect
      rw [if_pos rfl]
    constructor
    · rw [htab]
      rfl
    · rw [htab]
      rfl
  · intro hc hw
    have hflag : ¬ isCroppingFlag s := by
      unfold isCroppingFlag
      rw [hc]
      simp [hw]
    have hno : step s (Event.passportCropConfirm o) = s := by
      simp only [step]
      rw [if_neg hflag]
    exact ⟨hno, by rw [hno], by rw [hno]⟩

/-- A trace to a passport-cropping state with a completed zero-width crop
rectangle: upload, activate passport mode, complete a 0×50 rectangle. -/
def passportZeroWidthCrop : List Event :=
  [Event.upload ⟨"photo.png", "p"⟩,
   Event.setTab Tab.passport,
   Event.setCompletedCrop (some ⟨0, 0, 0, 50⟩)]

/-- Witness for C8: entering passport mode from the initial (retouch)
state starts cropping with the 7/9 aspect; and at the reachable
passport-tab state that sits in the `cropping` step with a completed
zero-width rectangle and no stored image, a confirm event is rejected —
the state is unchanged, still `cropping`, still no image. -/
theorem passport_activation_and_zero_width_crop_witness :
    ((step initialState (Event.setTab Tab.passport)).passportStep =
        PassportStep.cropping ∧
      (step initialState (Event.setTab Tab.passport)).aspect = some (7 / 9)) ∧
    (runEvents passportZeroWidthCrop).activeTab = Tab.passport ∧
    (runEvents passportZeroWidthCrop).passportStep = PassportStep.cropping ∧
    (runEvents passportZeroWidthCrop).passportCroppedImage = none ∧
    step (runEvents passportZeroWidthCrop)
        (Event.passportCropConfirm (some ⟨"x", ""⟩)) =
      runEvents passportZeroWidthCrop ∧
    (step (runEvents passportZeroWidthCrop)
        (Event.passportCropConfirm (some ⟨"x", ""⟩))).passportStep =
      PassportStep.cropping ∧
    (step (runEvents passportZeroWidthCrop)
        (Event.passportCropConfirm (some ⟨"x", ""⟩))).passportCroppedImage =
      none := by
  have h1 := (passport_activation_and_zero_width_crop initialState
    ⟨0, 0, 0, 50⟩ (some ⟨"x", ""⟩)).1 (by simp [initialState])
  have h2 := (passport_activation_and_zero_width_crop
    (runEvents passportZeroWidthCrop) ⟨0, 0, 0, 50⟩ (some ⟨"x", ""⟩)).2 rfl rfl
  refine ⟨h1, rfl, rfl, rfl, h2.1, ?_, ?_⟩
  · rw [h2.1]
    rfl
  · rw [h2.1]
    rfl

theorem isNone_false_of_isSome {α : Type} (o : Option α)
    (h : o.isSome = true) : o.isNone = false := by
  cases o
  · simp at h
  · rfl

/-- The validation guards under which an action really issues an external
generator call or a sheet decode. -/
def issuesCall (s : AppState) : Event → Prop
  | Event.generate _ =>
      (currentImage s).isSome = true ∧ s.prompt.trim ≠ "" ∧
        s.editHotspot.isSome = true
  | Event.applyFilter _ => (currentImage s).isSome = true
  | Event.applyAdjustment _ => (currentImage s).isSome = true
  | Event.autoAdjust _ => (currentImage s).isSome = true
  | Event.upscale _ => (currentImage s).isSome = true
  | Event.passportBgChange _ => s.passportCroppedImage.isSome = true
  | Event.sheetGenerate _ _ _ _ => (currentImage s).isSome = true
  | _ => False

/-- Whether the issued call / decode fails. -/
def callFails : Event → Prop
  | Event.generate o => o = none
  | Event.applyFilter o => o = none
  | Event.applyAdjustment o => o = none
  | Event.autoAdjust o => o = none
  | Event.upscale o => o = none
  | Event.passportBgChange o => o = none
  | Event.sheetGenerate _ _ _ ok => ok = false
  | _ => False

/-- C9 — for every action that issues an external generator call or the
sheet decode: if the call fails, the history sequence and cursor are
unchanged, a user-visible error message is set and the busy flag is
cleared; on every success path the busy flag is cleared as well. -/
theorem call_failure_is_clean (s : AppState) (e : Event)
    (hcall : issuesCall s e) :
    (callFails e →
      (step s e).history = s.history ∧
      (step s e).historyIndex = s.historyIndex ∧
      (step s e).error.isSome = true ∧
      (step s e).isLoading = false) ∧
    (¬ callFails e → (step s e).isLoading = false) := by
  cases e with
  | setTab t => exact hcall.elim
  | upload file => exact hcall.elim
  | uploadNew => exact hcall.elim
  | setPrompt p => exact hcall.elim
  | imageClick d src => exact hcall.elim
  | setCompletedCrop c => exact hcall.elim
  | setAdjustments a => exact hcall.elim
  | dismissError => exact hcall.elim
  | applyCrop o => exact hcall.elim
  | passportCropConfirm o => exact hcall.elim
  | passportReset => exact hcall.elim
  | undo => exact hcall.elim
  | redo => exact hcall.elim
  | resetHistory => exact hcall.elim
  | generate o =>
    obtain ⟨h1, h2, h3⟩ := hcall
    have hni := isNone_false_of_isSome _ h1
    have hni3 := isNone_false_of_isSome _ h3
    constructor
    · intro hf
      cases o with
      | some f => simp [callFails] at hf
      | none =>
        simp only [step]
        unfold handleGenerate
        simp [hni, hni3, h2]
    · intro hnf
      cases o with
      | some f =>
        simp only [step]
        unfold handleGenerate
        simp [hni, hni3, h2]
      | none => exact absurd rfl hnf
  | applyFilter o =>
    have hni := isNone_false_of_isSome _ hcall
    constructor
    · intro hf
      cases o with
      | some f => simp [callFails] at hf
      | none =>
        simp only [step]
        unfold handleApplyFilter
        simp [hni]
    · intro hnf
      cases o with
      | some f =>
        simp only [step]
        unfold handleApplyFilter
        simp [hni]
      | none => exact absurd rfl hnf
  | applyAdjustment o =>
    have hni := isNone_false_of_isSome _ hcall
    constructor
    · intro hf
      cases o with
      | some f => simp [callFails] at hf
      | none =>
        simp only [step]
        unfold handleApplyAdjustment
        simp [hni]
    · intro hnf
      cases o with
      | some f =>
        simp only [step]
        unfold handleApplyAdjustment
        simp [hni]
      | none => exact absurd rfl hnf
  | autoAdjust o =>
    have hni := isNone_false_of_isSome _ hcall
    constructor
    · intro hf
      cases o with
      | some f => simp [callFails] at hf
      | none =>
        simp only [step]
        unfold handleAutoAdjust
        simp [hni]
    · intro hnf
      cases o with
      | some f =>
        simp only [step]
        unfold handleAutoAdjust
        simp [hni]
      | none => exact absurd rfl hnf
  | upscale o =>
    have hni := isNone_false_of_isSome _ hcall
    constructor
    · intro hf
      cases o with
      | some f => simp [callFails] at hf
      | none =>
        simp only [step]
        unfold handleUpscale
        simp [hni]
    · intro hnf
      cases o with
      | some f =>
        simp only [step]
        unfold handleUpscale
        simp [hni]
      | none => exact absurd rfl hnf
  | passportBgChange o =>
    have hni := isNone_false_of_isSome _ hcall
    constructor
    · intro hf
      cases o with
      | some f => simp [callFails] at hf
      | none =>
        simp only [step]
        unfold handlePassportBgChange
        simp [hni]
    · intro hnf
      cases o with
      | some f =>
        simp only [step]
        unfold handlePassportBgChange
        simp [hni]
      | none => exact absurd rfl hnf
  | sheetGenerate a b c ok =>
    have hni := isNone_false_of_isSome _ hcall
    constructor
    · intro hf
      simp only [callFails] at hf
      subst hf
      simp only [step]
      unfold handleSheetGenerate
      simp [hni]
    · intro hnf
      cases ok with
      | false => exact absurd rfl hnf
      | true =>
        simp only [step]
        unfold handleSheetGenerate
        simp [hni]

/-- Witness for C9: with one image loaded, a failed filter call leaves the
history `[a]` and cursor 0 unchanged, sets an error and clears the busy
flag. -/
theorem call_failure_is_clean_witness :
    (step { initialState with history := [⟨"a", ""⟩], historyIndex := 0 }
        (Event.applyFilter none)).history = [⟨"a", ""⟩] ∧
    (step { initialState with history := [⟨"a", ""⟩], historyIndex := 0 }
        (Event.applyFilter none)).historyIndex = 0 ∧
    (step { initialState with history := [⟨"a", ""⟩], historyIndex := 0 }
        (Event.applyFilter none)).error.isSome = true ∧
    (step { initialState with history := [⟨"a", ""⟩], historyIndex := 0 }
        (Event.applyFilter none)).isLoading = false :=
  (call_failure_is_clean
    { initialState with history := [⟨"a", ""⟩], historyIndex := 0 }
    (Event.applyFilter none) rfl).1 rfl
